import Mathlib

/-!
Verification of the Linode DNS driver (`libcloud/dns/drivers/linode.py`).

The driver is shallowly embedded: Python dictionaries become association
lists over a `Value` type (string / int / None), the remote transport is
an oracle (each operation takes the decoded response body as an explicit
argument), and the connection context is threaded explicitly.  Raised
exceptions become `Except` errors; a Python `KeyError` on dictionary
access is `DNSError.keyError`.
-/

set_option autoImplicit false

/-- A Python scalar value as it occurs in this driver's dictionaries:
a string, an integer, or `None`. -/
inductive Value where
  | str (s : String)
  | int (n : Int)
  | vnone
  deriving DecidableEq, Repr

/-- Python truthiness (`if x:`) for the values above: empty string, zero
and `None` are falsy. -/
def Value.truthy : Value → Bool
  | Value.str s => !s.isEmpty
  | Value.int n => n != 0
  | Value.vnone => false

/-- A Python dict with string keys, as an association list.  Literals are
written with distinct keys, insertion (`d[k] = v`) replaces in place or
appends, matching Python dict semantics up to the operations used here. -/
abbrev Dict := List (String × Value)

/-- Dictionary lookup: first entry with the given key. -/
def dlookup : Dict → String → Option Value
  | [], _ => none
  | (k1, v1) :: rest, k => if k1 = k then some v1 else dlookup rest k

/-- Python `k in d`. -/
def dmem (d : Dict) (k : String) : Bool := (dlookup d k).isSome

/-- Python `d[k] = v`: replace the first entry with key `k`, or append. -/
def dinsert : Dict → String → Value → Dict
  | [], k, v => [(k, v)]
  | (k1, v1) :: rest, k, v =>
      if k1 = k then (k, v) :: rest else (k1, v1) :: dinsert rest k v

/-- The list of keys of a dictionary, in order. -/
def dictKeys (d : Dict) : List String := d.map Prod.fst

/-- The errors this driver can produce.  `linodeError` is the generic
`LinodeException` built by the parent response class from the transport
failure's numeric code and message; `keyError` is a Python `KeyError`. -/
inductive DNSError where
  | linodeError (code : Int) (msg : String)
  | zoneDoesNotExist (zone_id : Value)
  | recordDoesNotExist (record_id : Value)
  | keyError (k : String)
  | mappingError (s : String)
  deriving DecidableEq, Repr

/-- `LinodeDNSResponse._make_excp`.  The parent class's `_make_excp`
(`libcloud/common/linode.py`, outside the analysed sources) is modelled
per the spec's transport contract as producing a `LinodeException`
carrying the failure's numeric error code and message, so the
`isinstance(result, LinodeException)` guard holds.  The method then
inspects `self.connection.context`: on code 5 it reads
`context['resource']` (a `KeyError` if the key is absent) and translates
to the zone or record not-found error carrying `context['id']`; otherwise
the generic exception is returned unchanged. -/
def makeExcp (code : Int) (msg : String) (ctx : Dict) : Except DNSError DNSError :=
  let result := DNSError.linodeError code msg
  if code = 5 then
    match dlookup ctx "resource" with
    | none => Except.error (DNSError.keyError "resource")
    | some r =>
      if r = Value.str "zone" then
        match dlookup ctx "id" with
        | none => Except.error (DNSError.keyError "id")
        | some zid => Except.ok (DNSError.zoneDoesNotExist zid)
      else if r = Value.str "record" then
        match dlookup ctx "id" with
        | none => Except.error (DNSError.keyError "id")
        | some rid => Except.ok (DNSError.recordDoesNotExist rid)
      else Except.ok result
  else Except.ok result

/-- `LinodeDNSConnection.__init__` sets the context to the empty dict. -/
def initialContext : Dict := []

/-- C1: with the context primed for a zone, a code-5 failure translates to
Zone-Not-Found carrying the primed zone id; primed for a record, to
Record-Not-Found carrying the primed record id; and a failure with any
error code other than 5 is returned unchanged as the generic Linode
error, whatever the context. -/
theorem C1_make_excp_translation (code : Int) (msg : String) (zid rid : Value) (ctx : Dict)
    (hcode : code ≠ 5) :
    makeExcp 5 msg [("resource", Value.str "zone"), ("id", zid)]
      = Except.ok (DNSError.zoneDoesNotExist zid) ∧
    makeExcp 5 msg [("resource", Value.str "record"), ("id", rid)]
      = Except.ok (DNSError.recordDoesNotExist rid) ∧
    makeExcp code msg ctx = Except.ok (DNSError.linodeError code msg) := by
  refine ⟨rfl, rfl, ?_⟩
  simp [makeExcp, hcode]

/-- Witness for C1 at concrete inputs: code 7 is not the not-found code. -/
theorem C1_make_excp_translation_wit :
    makeExcp 5 "err" [("resource", Value.str "zone"), ("id", Value.int 11)]
      = Except.ok (DNSError.zoneDoesNotExist (Value.int 11)) ∧
    makeExcp 5 "err" [("resource", Value.str "record"), ("id", Value.int 12)]
      = Except.ok (DNSError.recordDoesNotExist (Value.int 12)) ∧
    makeExcp 7 "err" [] = Except.ok (DNSError.linodeError 7 "err") :=
  C1_make_excp_translation 7 "err" (Value.int 11) (Value.int 12) [] (by decide)

/-- C2 (code bug): with the context in its initial unset state (`{}`, as
set by `LinodeDNSConnection.__init__`), a code-5 failure does NOT pass
the generic error through: `context['resource']` raises `KeyError`.
The `if`/`elif` chain with its fall-through return shows pass-through was
the intent for unrecognized contexts, but the bare subscript defeats it
for the initial empty context. -/
theorem C2_unprimed_context_raises_keyerror :
    makeExcp 5 "Object not found" initialContext
      = Except.error (DNSError.keyError "resource") := rfl

theorem dlookup_dinsert_self (d : Dict) (k : String) (v : Value) :
    dlookup (dinsert d k v) k = some v := by
  induction d with
  | nil => simp [dinsert, dlookup]
  | cons kv rest ih =>
      obtain ⟨k1, v1⟩ := kv
      by_cases h : k1 = k
      · simp [dinsert, h, dlookup]
      · simp [dinsert, h, dlookup, ih]

theorem dlookup_dinsert_ne (d : Dict) (k : String) (v : Value) (k2 : String)
    (h : k2 ≠ k) : dlookup (dinsert d k v) k2 = dlookup d k2 := by
  induction d with
  | nil => simp [dinsert, dlookup, Ne.symm h]
  | cons kv rest ih =>
      obtain ⟨k1, v1⟩ := kv
      by_cases h1 : k1 = k
      · subst h1
        simp [dinsert, dlookup, Ne.symm h]
      · by_cases h2 : k1 = k2
        · subst h2
          simp [dinsert, dlookup, h1, h]
        · simp [dinsert, dlookup, h1, h2, ih]

theorem dlookup_eq_none_of_not_mem_keys (d : Dict) (k : String)
    (h : k ∉ dictKeys d) : dlookup d k = none := by
  induction d with
  | nil => rfl
  | cons kv rest ih =>
      obtain ⟨k1, v1⟩ := kv
      rw [show dictKeys ((k1, v1) :: rest) = k1 :: dictKeys rest from rfl] at h
      rw [List.mem_cons, not_or] at h
      simp [dlookup, Ne.symm h.1, ih h.2]

theorem dictKeys_dinsert (d : Dict) (k : String) (v : Value) :
    dictKeys (dinsert d k v)
      = if k ∈ dictKeys d then dictKeys d else dictKeys d ++ [k] := by
  induction d with
  | nil => simp [dinsert, dictKeys]
  | cons kv rest ih =>
      obtain ⟨k1, v1⟩ := kv
      by_cases h : k1 = k
      · subst h
        simp [dinsert, dictKeys]
      · simp only [dinsert, if_neg h, dictKeys, List.map_cons]
        simp only [dictKeys] at ih
        rw [ih]
        by_cases h2 : k ∈ List.map Prod.fst rest <;>
          simp [h2, List.mem_cons, Ne.symm h]

theorem nodupKeys_dinsert (d : Dict) (k : String) (v : Value)
    (h : (dictKeys d).Nodup) : (dictKeys (dinsert d k v)).Nodup := by
  rw [dictKeys_dinsert]
  by_cases hm : k ∈ dictKeys d
  · simpa [hm] using h
  · simp [hm, List.nodup_append, h]

/-- The body of the `for key in valid_keys` loop of
`LinodeDNSDriver._merge_valid_keys`, threading the pair
(`params`, `merged`) through the iterations. -/
def mergeLoop (e : Dict) : List String → Dict × Dict → Dict × Dict
  | [], pm => pm
  | key :: rest, (p, m) =>
      match dlookup e key with
      | some v => mergeLoop e rest (dinsert p key v, dinsert m key v)
      | none => mergeLoop e rest (p, m)

/-- `LinodeDNSDriver._merge_valid_keys`: returns the updated `params`
(the source mutates it in place) together with the `merged` dict.
`if not extra` is Python truthiness: both `None` and `{}` short-circuit. -/
def mergeValidKeys (params : Dict) (validKeys : List String) (extra : Option Dict) :
    Dict × Dict :=
  match extra with
  | none => (params, [])
  | some e => if e.isEmpty then (params, []) else mergeLoop e validKeys (params, [])

theorem mergeLoop_not_mem (e : Dict) (keys : List String) (k : String)
    (h : k ∉ keys) : ∀ p m : Dict,
    dlookup (mergeLoop e keys (p, m)).1 k = dlookup p k ∧
    dlookup (mergeLoop e keys (p, m)).2 k = dlookup m k := by
  induction keys with
  | nil => intro p m; exact ⟨rfl, rfl⟩
  | cons key rest ih =>
      intro p m
      have hk : k ≠ key := fun hkey => h (by simp [hkey])
      have hr : k ∉ rest := fun hr => h (List.mem_cons_of_mem _ hr)
      cases hcase : dlookup e key with
      | none => simpa [mergeLoop, hcase] using ih hr p m
      | some v =>
          have hrec := ih hr (dinsert p key v) (dinsert m key v)
          simp only [mergeLoop, hcase]
          exact ⟨by rw [hrec.1, dlookup_dinsert_ne _ _ _ _ hk],
                 by rw [hrec.2, dlookup_dinsert_ne _ _ _ _ hk]⟩

theorem mergeLoop_mem_hit (e : Dict) (keys : List String) (k : String) (v : Value)
    (hnd : keys.Nodup) (hk : k ∈ keys) (hv : dlookup e k = some v) : ∀ p m : Dict,
    dlookup (mergeLoop e keys (p, m)).1 k = some v ∧
    dlookup (mergeLoop e keys (p, m)).2 k = some v := by
  induction keys with
  | nil => cases hk
  | cons key rest ih =>
      intro p m
      rcases List.mem_cons.mp hk with hkey | hkey
      · subst hkey
        have hrest : k ∉ rest := (List.nodup_cons.mp hnd).1
        have hnm := mergeLoop_not_mem e rest k hrest (dinsert p k v) (dinsert m k v)
        simp only [mergeLoop, hv]
        exact ⟨by rw [hnm.1, dlookup_dinsert_self],
               by rw [hnm.2, dlookup_dinsert_self]⟩
      · have hnd2 := (List.nodup_cons.mp hnd).2
        cases hcase : dlookup e key with
        | none => simpa [mergeLoop, hcase] using ih hnd2 hkey p m
        | some w =>
            simpa [mergeLoop, hcase] using (ih hnd2 hkey (dinsert p key w) (dinsert m key w))

theorem mergeLoop_mem_miss (e : Dict) (keys : List String) (k : String)
    (hv : dlookup e k = none) : ∀ p m : Dict,
    dlookup (mergeLoop e keys (p, m)).1 k = dlookup p k ∧
    dlookup (mergeLoop e keys (p, m)).2 k = dlookup m k := by
  induction keys with
  | nil => intro p m; exact ⟨rfl, rfl⟩
  | cons key rest ih =>
      intro p m
      by_cases hkey : k = key
      · subst hkey
        simpa [mergeLoop, hv] using ih p m
      · cases hcase : dlookup e key with
        | none => simpa [mergeLoop, hcase] using ih p m
        | some w =>
            have hrec := ih (dinsert p key w) (dinsert m key w)
            simp only [mergeLoop, hcase]
            exact ⟨by rw [hrec.1, dlookup_dinsert_ne _ _ _ _ hkey],
                   by rw [hrec.2, dlookup_dinsert_ne _ _ _ _ hkey]⟩

theorem mergeLoop_nodupKeys (e : Dict) (keys : List String) : ∀ p m : Dict,
    (dictKeys m).Nodup → (dictKeys (mergeLoop e keys (p, m)).2).Nodup := by
  induction keys with
  | nil => intro p m h; exact h
  | cons key rest ih =>
      intro p m h
      cases hcase : dlookup e key with
      | none => simpa [mergeLoop, hcase] using ih p m h
      | some v =>
          simpa [mergeLoop, hcase] using (ih (dinsert p key v) (dinsert m key v)
            (nodupKeys_dinsert m key v h))

theorem mergeValidKeys_hit (params : Dict) (keys : List String) (e : Dict)
    (k : String) (v : Value) (hnd : keys.Nodup) (hk : k ∈ keys)
    (hv : dlookup e k = some v) :
    dlookup (mergeValidKeys params keys (some e)).1 k = some v ∧
    dlookup (mergeValidKeys params keys (some e)).2 k = some v := by
  have he : e.isEmpty = false := by
    cases e with
    | nil => simp [dlookup] at hv
    | cons x xs => rfl
  simpa [mergeValidKeys, he] using (mergeLoop_mem_hit e keys k v hnd hk hv params [])

theorem mergeValidKeys_miss (params : Dict) (keys : List String) (e : Dict)
    (k : String) (hv : dlookup e k = none) :
    dlookup (mergeValidKeys params keys (some e)).1 k = dlookup params k ∧
    dlookup (mergeValidKeys params keys (some e)).2 k = none := by
  cases he : e.isEmpty with
  | true => simp [mergeValidKeys, he, dlookup]
  | false => simpa [mergeValidKeys, he, dlookup] using (mergeLoop_mem_miss e keys k hv params [])

theorem mergeValidKeys_not_mem (params : Dict) (keys : List String) (e : Dict)
    (k : String) (hk : k ∉ keys) :
    dlookup (mergeValidKeys params keys (some e)).1 k = dlookup params k ∧
    dlookup (mergeValidKeys params keys (some e)).2 k = none := by
  cases he : e.isEmpty with
  | true => simp [mergeValidKeys, he, dlookup]
  | false => simpa [mergeValidKeys, he, dlookup] using (mergeLoop_not_mem e keys k hk params [])

theorem mergeValidKeys_no_extra (params : Dict) (keys : List String) (k : String) :
    dlookup (mergeValidKeys params keys none).1 k = dlookup params k ∧
    dlookup (mergeValidKeys params keys none).2 k = none := ⟨rfl, rfl⟩

theorem mergeValidKeys_nodupKeys (params : Dict) (keys : List String)
    (extra : Option Dict) :
    (dictKeys (mergeValidKeys params keys extra).2).Nodup := by
  cases extra with
  | none => simp [mergeValidKeys, dictKeys]
  | some e =>
      cases he : e.isEmpty with
      | true => simp [mergeValidKeys, he, dictKeys]
      | false =>
          simpa [mergeValidKeys, he] using
            (mergeLoop_nodupKeys e keys params [] (by simp [dictKeys]))

/-- The generic record-type enumeration values covered by the driver's
type table (`libcloud.dns.types.RecordType` members A, AAAA, CNAME, TXT,
SRV). -/
inductive RecordType where
  | A
  | AAAA
  | CNAME
  | TXT
  | SRV
  deriving DecidableEq, Repr

/-- `RECORD_TYPE_MAP` from the source.  Note the AAAA entry: the provider
string is the five-letter `"AAAAA"`, exactly as written in the source. -/
def RECORD_TYPE_MAP : RecordType → String
  | RecordType.A => "A"
  | RecordType.AAAA => "AAAAA"
  | RecordType.CNAME => "CNAME"
  | RecordType.TXT => "TXT"
  | RecordType.SRV => "SRV"

/-- All generic record-type values of the table, in table order. -/
def recordTypes : List RecordType :=
  [RecordType.A, RecordType.AAAA, RecordType.CNAME, RecordType.TXT, RecordType.SRV]

/-- Modelled from the spec: `DNSDriver._string_to_record_type`
(`libcloud/dns/base.py`, not among the analysed sources) is "the reverse
of the create-side mapping; an unrecognized provider string is a mapping
failure, not a silent default".  It returns the enum value whose
`RECORD_TYPE_MAP` entry is the given provider string, if any. -/
def stringToRecordType (s : String) : Option RecordType :=
  recordTypes.find? (fun t => RECORD_TYPE_MAP t == s)

/-- `VALID_ZONE_EXTRA_PARAMS` from the source. -/
def VALID_ZONE_EXTRA_PARAMS : List String :=
  ["SOA_Email", "Refresh_sec", "Retry_sec", "Expire_sec", "status", "master_ips"]

/-- `VALID_RECORD_EXTRA_PARAMS` from the source. -/
def VALID_RECORD_EXTRA_PARAMS : List String :=
  ["Priority", "Weight", "Port", "Protocol", "TTL_sec"]

/-- Modelled from the spec: the generic `Zone` object
(`libcloud/dns/base.py`, not among the analysed sources).  Per spec §3 a
zone holds identity, domain name, zone type, ttl, the extra-attribute
mapping, and a back-reference to the owning driver; its constructor
stores exactly these fields, so `obj.__dict__` is this field set.
The driver back-reference is an opaque tag. -/
structure Zone where
  id : Value
  domain : Value
  type : Value
  ttl : Value
  extra : Dict
  driver : Nat
  deriving DecidableEq, Repr

/-- Modelled from the spec: the generic `Record` object
(`libcloud/dns/base.py`, not among the analysed sources).  Per spec §3 a
record holds identity, name, the generic type enumeration value,
data/target value, the extra-attribute mapping, the owning zone
reference, and the driver back-reference. -/
structure Record where
  id : Value
  name : Value
  type : RecordType
  data : Value
  extra : Dict
  zone : Zone
  driver : Nat
  deriving DecidableEq, Repr

/-- A request as the driver hands it to the transport: the connection
context in force at the moment the request is issued, and the flat
parameter dict. -/
structure Request where
  ctx : Dict
  params : Dict
  deriving DecidableEq, Repr

/-- Python `d[k]` on a response item: the value, or a `KeyError`. -/
def dget (d : Dict) (k : String) : Except DNSError Value :=
  match dlookup d k with
  | some v => Except.ok v
  | none => Except.error (DNSError.keyError k)

/-- `LinodeDNSDriver._to_zone`: build a Zone from a response item, with
the three unconditional extra fields, reading the item's fields in the
source's evaluation order. -/
def toZone (driver : Nat) (item : Dict) : Except DNSError Zone := do
  let soa ← dget item "SOA_EMAIL"
  let status ← dget item "STATUS"
  let desc ← dget item "DESCRIPTION"
  let did ← dget item "DOMAINID"
  let dom ← dget item "DOMAIN"
  let ty ← dget item "TYPE"
  let ttl ← dget item "TTL_SEC"
  Except.ok { id := did, domain := dom, type := ty, ttl := ttl,
              extra := [("SOA_Email", soa), ("status", status), ("description", desc)],
              driver := driver }

/-- `LinodeDNSDriver._to_zones`: element-wise, order-preserving. -/
def toZones (driver : Nat) : List Dict → Except DNSError (List Zone)
  | [] => Except.ok []
  | item :: rest => do
      let z ← toZone driver item
      let zs ← toZones driver rest
      Except.ok (z :: zs)

/-- `LinodeDNSDriver._to_record`: build a Record from a response item.
The provider type string goes through `stringToRecordType`; an
unrecognized string (or a non-string TYPE field) is a mapping failure.
The zone reference is the zone passed by the caller (in the analysed
operations a zone is always supplied). -/
def toRecord (driver : Nat) (item : Dict) (zone : Zone) : Except DNSError Record := do
  let protocol ← dget item "PROTOCOL"
  let ttlsec ← dget item "TTL_SEC"
  let port ← dget item "PORT"
  let weight ← dget item "WEIGHT"
  let tys ← dget item "TYPE"
  let ty ← match tys with
    | Value.str s =>
        match stringToRecordType s with
        | some t => Except.ok t
        | none => Except.error (DNSError.mappingError s)
    | Value.int n => Except.error (DNSError.mappingError (toString n))
    | Value.vnone => Except.error (DNSError.mappingError "None")
  let rid ← dget item "RESOURCEID"
  let name ← dget item "NAME"
  let target ← dget item "TARGET"
  Except.ok { id := rid, name := name, type := ty, data := target,
              extra := [("protocol", protocol), ("ttl_sec", ttlsec),
                        ("port", port), ("weight", weight)],
              zone := zone, driver := driver }

/-- `LinodeDNSDriver._to_records`: element-wise, order-preserving. -/
def toRecords (driver : Nat) (items : List Dict) (zone : Zone) :
    Except DNSError (List Record) :=
  match items with
  | [] => Except.ok []
  | item :: rest => do
      let r ← toRecord driver item zone
      let rs ← toRecords driver rest zone
      Except.ok (r :: rs)

/-- The overlay a non-None dict value receives in
`LinodeDNSDriver._get_new_obj`: start from the prior object's (copied)
dict and set each non-None entry of the new dict over it. -/
def overlayExtra (base : Dict) (merged : Dict) : Dict :=
  merged.foldl
    (fun acc kv => if kv.2 = Value.vnone then acc else dinsert acc kv.1 kv.2) base

/-- `LinodeDNSDriver._get_new_obj` specialised to `Zone`: the source
copies `obj.__dict__` (the Zone field set) into kwargs, then overlays the
attributes dict `{'domain': domain, 'type': type, 'ttl': ttl, 'extra':
merged}`, skipping attribute values that are `None`; a dict-valued
attribute (the merged extra, never `None` here) is overlaid entry-wise
onto the prior dict, skipping `None` entries. -/
def getNewObjZone (obj : Zone) (domain ty ttl : Value) (merged : Dict) : Zone :=
  { id := obj.id
    domain := if domain = Value.vnone then obj.domain else domain
    type := if ty = Value.vnone then obj.type else ty
    ttl := if ttl = Value.vnone then obj.ttl else ttl
    extra := overlayExtra obj.extra merged
    driver := obj.driver }

/-- The params dict `create_zone` builds before the extra merge. -/
def create_zone_base_params (domain ty ttl : Value) : Dict :=
  let params := [("api_action", Value.str "domain.create"), ("Type", ty), ("Domain", domain)]
  if ttl.truthy then dinsert params "TTL_sec" ttl else params

/-- `LinodeDNSDriver.create_zone`: builds the params (merging allow-listed
extras in place), issues the request (whose decoded first object is the
`data` argument), and constructs the returned Zone from the caller's
arguments plus `data['DomainID']` and the merged extra dict. -/
def create_zone (driver : Nat) (domain ty ttl : Value) (extra : Option Dict)
    (data : Dict) : Dict × Except DNSError Zone :=
  let pm := mergeValidKeys (create_zone_base_params domain ty ttl)
      VALID_ZONE_EXTRA_PARAMS extra
  (pm.1,
   match dlookup data "DomainID" with
   | none => Except.error (DNSError.keyError "DomainID")
   | some did =>
       Except.ok { id := did, domain := domain, type := ty, ttl := ttl,
                   extra := pm.2, driver := driver })

/-- The params dict `update_zone` builds before the extra merge.  Note the
initial dict already carries `'Type': type` (even when `type` is None);
the `if type:` guard re-inserts the same entry. -/
def update_zone_base_params (zone : Zone) (domain ty ttl : Value) : Dict :=
  let params := [("api_action", Value.str "domain.update"), ("DomainID", zone.id),
                 ("Type", ty)]
  let params := if ty.truthy then dinsert params "Type" ty else params
  let params := if domain.truthy then dinsert params "Domain" domain else params
  if ttl.truthy then dinsert params "TTL_sec" ttl else params

/-- `LinodeDNSDriver.update_zone`: builds the params (merging allow-listed
extras), issues the request, and returns `_get_new_obj` of the prior zone
with the non-None overrides.  The decoded response body `data` is fetched
but not used to build the updated zone. -/
def update_zone (zone : Zone) (domain ty ttl : Value) (extra : Option Dict)
    (data : Dict) : Dict × Zone :=
  let pm := mergeValidKeys (update_zone_base_params zone domain ty ttl)
      VALID_ZONE_EXTRA_PARAMS extra
  let _ := data
  (pm.1, getNewObjZone zone domain ty ttl pm.2)

/-- The params dict `create_record` builds before the extra merge.
`RECORD_TYPE_MAP[type]` is total over the table's enum values. -/
def create_record_base_params (zone : Zone) (name target : Value) (ty : RecordType) : Dict :=
  [("api_action", Value.str "domain.resource.create"), ("DomainID", zone.id),
   ("Name", name), ("Target", target), ("Type", Value.str (RECORD_TYPE_MAP ty))]

/-- `LinodeDNSDriver.create_record`: builds the params (merging
allow-listed extras), issues the request, and constructs the returned
Record from the caller's arguments plus `result['ResourceID']` and the
merged extra dict. -/
def create_record (driver : Nat) (name : Value) (zone : Zone) (ty : RecordType)
    (target : Value) (extra : Option Dict) (result : Dict) :
    Dict × Except DNSError Record :=
  let pm := mergeValidKeys (create_record_base_params zone name target ty)
      VALID_RECORD_EXTRA_PARAMS extra
  (pm.1,
   match dlookup result "ResourceID" with
   | none => Except.error (DNSError.keyError "ResourceID")
   | some rid =>
       Except.ok { id := rid, name := name, type := ty, data := target,
                   extra := pm.2, zone := zone, driver := driver })

/-- The params of the `domain.list` request issued by `get_zone`. -/
def get_zone_params (zone_id : Value) : Dict :=
  [("api_action", Value.str "domain.list"), ("DomainID", zone_id)]

/-- `LinodeDNSDriver.get_zone`: maps the response items to zones and
enforces the cardinality contract: anything but exactly one mapped zone
raises Zone-Not-Found carrying the requested id. -/
def get_zone (driver : Nat) (zone_id : Value) (items : List Dict) :
    Dict × Except DNSError Zone :=
  (get_zone_params zone_id,
   match toZones driver items with
   | Except.error e => Except.error e
   | Except.ok zones =>
       match zones with
       | [z] => Except.ok z
       | _ => Except.error (DNSError.zoneDoesNotExist zone_id))

/-- The params of the `domain.resource.list` request issued by
`get_record` (note the mixed-case `DomainID`/`ResourceID` keys, unlike
`list_records`). -/
def get_record_params (zone_id record_id : Value) : Dict :=
  [("api_action", Value.str "domain.resource.list"), ("DomainID", zone_id),
   ("ResourceID", record_id)]

/-- The trace of one `get_record` call: every request issued (with the
connection context in force at that moment) and the final outcome. -/
structure GetRecordTrace where
  requests : List Request
  result : Except DNSError Record
  deriving Repr

/-- `LinodeDNSDriver.get_record`: first resolves the zone via `get_zone`
(its error, if any, propagates and no further request is issued), then
issues the resource-list request — without any `set_context` call, so
the connection context `ctx` is whatever it already was — maps the items
and enforces the cardinality contract with Record-Not-Found. -/
def get_record (driver : Nat) (ctx : Dict) (zone_id record_id : Value)
    (zoneItems recItems : List Dict) : GetRecordTrace :=
  let zoneReq : Request := { ctx := ctx, params := get_zone_params zone_id }
  match (get_zone driver zone_id zoneItems).2 with
  | Except.error e => { requests := [zoneReq], result := Except.error e }
  | Except.ok zone =>
      let recReq : Request := { ctx := ctx, params := get_record_params zone_id record_id }
      { requests := [zoneReq, recReq],
        result :=
          match toRecords driver recItems zone with
          | Except.error e => Except.error e
          | Except.ok rs =>
              match rs with
              | [r] => Except.ok r
              | _ => Except.error (DNSError.recordDoesNotExist record_id) }

/-- `LinodeDNSDriver.list_records`: primes the context with the zone
before issuing the `domain.resource.list` request (uppercase `DOMAINID`
key), then maps the items. -/
def list_records (driver : Nat) (zone : Zone) (items : List Dict) :
    Request × Except DNSError (List Record) :=
  let params := [("api_action", Value.str "domain.resource.list"), ("DOMAINID", zone.id)]
  let ctx := [("resource", Value.str "zone"), ("id", zone.id)]
  ({ ctx := ctx, params := params }, toRecords driver items zone)

/-- `LinodeDNSDriver.delete_zone`: primes the context with the zone,
issues `domain.delete`, and reports success iff the response item
contains the `DomainID` key. -/
def delete_zone (zone : Zone) (data : Dict) : Request × Bool :=
  let params := [("api_action", Value.str "domain.delete"), ("DomainID", zone.id)]
  let ctx := [("resource", Value.str "zone"), ("id", zone.id)]
  ({ ctx := ctx, params := params }, dmem data "DomainID")

/-- `LinodeDNSDriver.delete_record`: primes the context with the record,
issues `domain.resource.delete`, and reports success iff the response
item contains the `ResourceID` key. -/
def delete_record (record : Record) (data : Dict) : Request × Bool :=
  let params := [("api_action", Value.str "domain.resource.delete"),
                 ("DomainID", record.zone.id), ("ResourceID", record.id)]
  let ctx := [("resource", Value.str "record"), ("id", record.id)]
  ({ ctx := ctx, params := params }, dmem data "ResourceID")

theorem overlayExtra_step (base : Dict) (k1 : String) (v1 : Value) (rest : Dict) :
    overlayExtra base ((k1, v1) :: rest)
      = overlayExtra (if v1 = Value.vnone then base else dinsert base k1 v1) rest := rfl

theorem overlayExtra_lookup_none (merged : Dict) (k : String)
    (hv : dlookup merged k = none) : ∀ base : Dict,
    dlookup (overlayExtra base merged) k = dlookup base k := by
  induction merged with
  | nil => intro base; rfl
  | cons kv rest ih =>
      obtain ⟨k1, v1⟩ := kv
      intro base
      simp only [dlookup] at hv
      by_cases h1 : k1 = k
      · simp [h1] at hv
      · rw [if_neg h1] at hv
        rw [overlayExtra_step, ih hv]
        by_cases hv1 : v1 = Value.vnone
        · simp [hv1]
        · simp [hv1, dlookup_dinsert_ne base k1 v1 k (Ne.symm h1)]

theorem overlayExtra_hit (merged : Dict) (k : String) (v : Value)
    (hnd : (dictKeys merged).Nodup) (hv : dlookup merged k = some v)
    (hvn : v ≠ Value.vnone) : ∀ base : Dict,
    dlookup (overlayExtra base merged) k = some v := by
  induction merged with
  | nil => intro base; simp [dlookup] at hv
  | cons kv rest ih =>
      obtain ⟨k1, v1⟩ := kv
      intro base
      rw [show dictKeys ((k1, v1) :: rest) = k1 :: dictKeys rest from rfl] at hnd
      simp only [dlookup] at hv
      rw [overlayExtra_step]
      by_cases h1 : k1 = k
      · subst h1
        rw [if_pos rfl] at hv
        injection hv with hv1
        subst hv1
        have hrest : dlookup rest k1 = none :=
          dlookup_eq_none_of_not_mem_keys rest k1 (List.nodup_cons.mp hnd).1
        rw [overlayExtra_lookup_none rest k1 hrest]
        simp [hvn, dlookup_dinsert_self]
      · rw [if_neg h1] at hv
        exact ih (List.nodup_cons.mp hnd).2 hv _

theorem overlayExtra_entry_vnone (merged : Dict) (k : String)
    (hnd : (dictKeys merged).Nodup) (hv : dlookup merged k = some Value.vnone) :
    ∀ base : Dict, dlookup (overlayExtra base merged) k = dlookup base k := by
  induction merged with
  | nil => intro base; simp [dlookup] at hv
  | cons kv rest ih =>
      obtain ⟨k1, v1⟩ := kv
      intro base
      rw [show dictKeys ((k1, v1) :: rest) = k1 :: dictKeys rest from rfl] at hnd
      simp only [dlookup] at hv
      rw [overlayExtra_step]
      by_cases h1 : k1 = k
      · subst h1
        rw [if_pos rfl] at hv
        injection hv with hv1
        subst hv1
        have hrest : dlookup rest k1 = none :=
          dlookup_eq_none_of_not_mem_keys rest k1 (List.nodup_cons.mp hnd).1
        rw [if_pos rfl, overlayExtra_lookup_none rest k1 hrest]
      · rw [if_neg h1] at hv
        rw [ih (List.nodup_cons.mp hnd).2 hv]
        by_cases hv1 : v1 = Value.vnone
        · simp [hv1]
        · simp [hv1, dlookup_dinsert_ne base k1 v1 k (Ne.symm h1)]

/-- A concrete zone fixture used by the concrete-input theorems. -/
def sampleZone : Zone :=
  { id := Value.int 1, domain := Value.str "example.com",
    type := Value.str "master", ttl := Value.vnone, extra := [], driver := 0 }

/-- A concrete well-formed `domain.list` response item. -/
def sampleZoneItem : Dict :=
  [("DOMAINID", Value.int 1), ("DOMAIN", Value.str "example.com"),
   ("TYPE", Value.str "master"), ("TTL_SEC", Value.int 3600),
   ("SOA_EMAIL", Value.str "soa@example.com"), ("STATUS", Value.int 1),
   ("DESCRIPTION", Value.str "")]

/-- The Zone that `_to_zone` builds from `sampleZoneItem`. -/
def sampleMappedZone : Zone :=
  { id := Value.int 1, domain := Value.str "example.com",
    type := Value.str "master", ttl := Value.int 3600,
    extra := [("SOA_Email", Value.str "soa@example.com"), ("status", Value.int 1),
              ("description", Value.str "")],
    driver := 0 }

/-- C3 (code bug): calling `update_zone` with `type=None` (all optional
arguments unset) still sends the key `'Type'` — carrying `None` — in the
outgoing parameters, because the initial params dict already contains
`'Type': type` and the `if type:` guard below it is a no-op.  The claim
(and spec §4.1) says a falsy `type` must not appear as a key at all.
`DomainID` and the conditional behaviour of `Domain`/`TTL_sec` are as
claimed; only the `Type` key diverges. -/
theorem C3_update_zone_type_key_always_sent :
    dlookup (update_zone sampleZone Value.vnone Value.vnone Value.vnone none []).1 "Type"
      = some Value.vnone := rfl

/-- C4 counterexample: `get_record` issues its record-listing request
WITHOUT priming the connection context.  With the context initially
unset, a successful zone resolution is followed by a record-listing
request whose context is still the empty dict — not the
`{'resource': 'zone', 'id': zone_id}` the claim asserts. -/
theorem C4_get_record_does_not_prime_context :
    ((get_record 0 initialContext (Value.int 1) (Value.int 2)
        [sampleZoneItem] []).requests.map Request.ctx)
      = [initialContext, initialContext] ∧
    initialContext ≠ [("resource", Value.str "zone"), ("id", Value.int 1)] :=
  ⟨rfl, by decide⟩

/-- C4 (amended): `get_record` resolves the zone first — any error from
that resolution (in particular Zone-Not-Found carrying `zone_id`)
propagates and the record-listing request is never issued — and on
success it issues the record-listing request with the connection context
unchanged from whatever it already was: no context is primed. -/
theorem C4_get_record_zone_first_no_priming (driver : Nat) (ctx : Dict)
    (zone_id record_id : Value) (zoneItems recItems : List Dict) :
    (∀ e, (get_zone driver zone_id zoneItems).2 = Except.error e →
       (get_record driver ctx zone_id record_id zoneItems recItems).result
         = Except.error e ∧
       (get_record driver ctx zone_id record_id zoneItems recItems).requests
         = [{ ctx := ctx, params := get_zone_params zone_id }]) ∧
    (∀ z, (get_zone driver zone_id zoneItems).2 = Except.ok z →
       (get_record driver ctx zone_id record_id zoneItems recItems).requests
         = [{ ctx := ctx, params := get_zone_params zone_id },
            { ctx := ctx, params := get_record_params zone_id record_id }]) := by
  constructor
  · intro e he
    constructor <;> simp [get_record, he]
  · intro z hz
    simp [get_record, hz]

/-- Witness for C4's amended theorem: an empty `domain.list` response
makes the zone resolution fail with Zone-Not-Found, which `get_record`
propagates after a single request. -/
theorem C4_get_record_zone_first_no_priming_wit :
    (get_zone 0 (Value.int 1) []).2
      = Except.error (DNSError.zoneDoesNotExist (Value.int 1)) ∧
    (get_record 0 [] (Value.int 1) (Value.int 2) [] []).result
      = Except.error (DNSError.zoneDoesNotExist (Value.int 1)) ∧
    (get_record 0 [] (Value.int 1) (Value.int 2) [] []).requests
      = [{ ctx := [], params := get_zone_params (Value.int 1) }] :=
  ⟨rfl,
   ((C4_get_record_zone_first_no_priming 0 [] (Value.int 1) (Value.int 2) [] []).1
      (DNSError.zoneDoesNotExist (Value.int 1)) rfl).1,
   ((C4_get_record_zone_first_no_priming 0 [] (Value.int 1) (Value.int 2) [] []).1
      (DNSError.zoneDoesNotExist (Value.int 1)) rfl).2⟩

/-- C5: `get_zone` returns the single mapped zone if exactly one item
mapped, and raises Zone-Not-Found carrying `zone_id` whenever the mapped
item count differs from one (zero or several); `get_record` does the
same over the mapped records with Record-Not-Found carrying
`record_id`. -/
theorem C5_get_cardinality (driver : Nat) (ctx : Dict) (zone_id record_id : Value)
    (items zoneItems recItems : List Dict) (zones : List Zone) (zone : Zone)
    (rs : List Record)
    (hz : toZones driver items = Except.ok zones)
    (hgz : (get_zone driver zone_id zoneItems).2 = Except.ok zone)
    (hr : toRecords driver recItems zone = Except.ok rs) :
    ((zones.length ≠ 1 → (get_zone driver zone_id items).2
        = Except.error (DNSError.zoneDoesNotExist zone_id)) ∧
     (∀ z, zones = [z] → (get_zone driver zone_id items).2 = Except.ok z)) ∧
    ((rs.length ≠ 1 →
        (get_record driver ctx zone_id record_id zoneItems recItems).result
          = Except.error (DNSError.recordDoesNotExist record_id)) ∧
     (∀ r, rs = [r] →
        (get_record driver ctx zone_id record_id zoneItems recItems).result
          = Except.ok r)) := by
  refine ⟨⟨?_, ?_⟩, ?_, ?_⟩
  · intro hlen
    cases zones with
    | nil => simp [get_zone, hz]
    | cons z1 zs =>
        cases zs with
        | nil => exact absurd rfl hlen
        | cons z2 zs2 => simp [get_zone, hz]
  · intro z hzs
    subst hzs
    simp [get_zone, hz]
  · intro hlen
    cases rs with
    | nil => simp [get_record, hgz, hr]
    | cons r1 rs1 =>
        cases rs1 with
        | nil => exact absurd rfl hlen
        | cons r2 rs2 => simp [get_record, hgz, hr]
  · intro r hrs
    subst hrs
    simp [get_record, hgz, hr]

/-- Witness for C5 at concrete inputs: an empty zone listing (zero
zones) and, for the record half, one well-formed zone item followed by
an empty record listing. -/
theorem C5_get_cardinality_wit :
    (get_zone 0 (Value.int 1) []).2
      = Except.error (DNSError.zoneDoesNotExist (Value.int 1)) ∧
    (get_record 0 [] (Value.int 1) (Value.int 2) [sampleZoneItem] []).result
      = Except.error (DNSError.recordDoesNotExist (Value.int 2)) :=
  ⟨(C5_get_cardinality 0 [] (Value.int 1) (Value.int 2) [] [sampleZoneItem] []
      [] sampleMappedZone [] rfl rfl rfl).1.1 (by decide),
   (C5_get_cardinality 0 [] (Value.int 1) (Value.int 2) [] [sampleZoneItem] []
      [] sampleMappedZone [] rfl rfl rfl).2.1 (by decide)⟩

/-- C6: `delete_zone` primes the context with `{'resource': 'zone', 'id':
zone.id}` before its request and returns true exactly when the response
item has the `DomainID` key (presence is checked with `in`, which never
raises); `delete_record` primes `{'resource': 'record', 'id': record.id}`
and checks `ResourceID`. -/
theorem C6_delete_success_key_and_context (zone : Zone) (record : Record)
    (dataZ dataR : Dict) :
    (delete_zone zone dataZ).1.ctx
      = [("resource", Value.str "zone"), ("id", zone.id)] ∧
    ((delete_zone zone dataZ).2 = true ↔ (dlookup dataZ "DomainID").isSome) ∧
    (delete_record record dataR).1.ctx
      = [("resource", Value.str "record"), ("id", record.id)] ∧
    ((delete_record record dataR).2 = true ↔ (dlookup dataR "ResourceID").isSome) :=
  ⟨rfl, by simp [delete_zone, dmem], rfl, by simp [delete_record, dmem]⟩

/-- C8: updating a zone with `ttl=None` (and every other optional
argument unset) returns the prior zone unchanged — in particular the
prior ttl — and updating with `ttl=300` returns a zone with ttl 300 and
every other field (id, domain, type, extra, driver) equal to the prior
zone's. -/
theorem C8_update_zone_ttl_frame (zone : Zone) (data : Dict) :
    (update_zone zone Value.vnone Value.vnone Value.vnone none data).2 = zone ∧
    (update_zone zone Value.vnone Value.vnone (Value.int 300) none data).2
      = { zone with ttl := Value.int 300 } :=
  ⟨rfl, rfl⟩

/-- C9: the record-type table round-trips in both directions over every
entry, the malformed AAAA fixture included: decoding the provider string
of each enum value gives the value back, and encoding the decoding of
each provider string in the table gives the string back.  The AAAA entry
is the five-letter provider string `"AAAAA"`, exactly as in the source —
documented here as a fixture, not corrected — so the table strings below
contain `"AAAAA"` and not the four-letter `"AAAA"`. -/
theorem C9_record_type_roundtrip :
    (∀ t : RecordType, stringToRecordType (RECORD_TYPE_MAP t) = some t) ∧
    ((stringToRecordType "A").map RECORD_TYPE_MAP = some "A" ∧
     (stringToRecordType "AAAAA").map RECORD_TYPE_MAP = some "AAAAA" ∧
     (stringToRecordType "CNAME").map RECORD_TYPE_MAP = some "CNAME" ∧
     (stringToRecordType "TXT").map RECORD_TYPE_MAP = some "TXT" ∧
     (stringToRecordType "SRV").map RECORD_TYPE_MAP = some "SRV") ∧
    RECORD_TYPE_MAP RecordType.AAAA = "AAAAA" := by
  refine ⟨fun t => ?_, ⟨rfl, rfl, rfl, rfl, rfl⟩, rfl⟩
  cases t <;> rfl

/-- Lookup through an optional extra dict (`None` behaves as empty). -/
def extraLookup (extra : Option Dict) (k : String) : Option Value :=
  match extra with
  | some e => dlookup e k
  | none => none

/-- C7 counterexample: on `update_zone` an allow-listed extra key whose
value is `None` IS added to the outgoing parameters and to the merged
mapping, but is NOT present in the resulting Zone's extra —
`_get_new_obj` skips `None` entries when overlaying the merged dict onto
the prior extra.  So "added ... to the merged extra mapping of the
resulting Zone" fails as stated for update_zone. -/
theorem C7_update_extra_none_value_dropped :
    "SOA_Email" ∈ VALID_ZONE_EXTRA_PARAMS ∧
    dlookup (update_zone sampleZone Value.vnone Value.vnone Value.vnone
        (some [("SOA_Email", Value.vnone)]) []).1 "SOA_Email" = some Value.vnone ∧
    dlookup (update_zone sampleZone Value.vnone Value.vnone Value.vnone
        (some [("SOA_Email", Value.vnone)]) []).2.extra "SOA_Email" = none :=
  ⟨by decide, rfl, rfl⟩

/-- C7 (amended): the allow-list merge for create_zone, update_zone and
create_record.  Exactly the allow-listed keys of `extra` are added to
the outgoing parameters (with their supplied values) and to the merged
mapping; keys outside the allow-list change neither the parameters nor
the merged mapping.  For create_zone (and create_record) the returned
object's extra is exactly the merged mapping; for update_zone a merged
entry reaches the resulting Zone's extra only when its value is not
None — a None-valued entry leaves the prior zone's extra entry in place
— and keys outside the allow-list leave the prior extra unchanged. -/
theorem C7_allowlist_merge (driver : Nat) (zone : Zone)
    (domain ty ttl name target : Value) (rty : RecordType) (e data : Dict)
    (k : String) (v : Value) :
    (k ∈ VALID_ZONE_EXTRA_PARAMS → dlookup e k = some v →
       dlookup (create_zone driver domain ty ttl (some e) data).1 k = some v) ∧
    (k ∈ VALID_ZONE_EXTRA_PARAMS → dlookup e k = none →
       dlookup (create_zone driver domain ty ttl (some e) data).1 k
         = dlookup (create_zone_base_params domain ty ttl) k) ∧
    (k ∉ VALID_ZONE_EXTRA_PARAMS →
       dlookup (create_zone driver domain ty ttl (some e) data).1 k
         = dlookup (create_zone_base_params domain ty ttl) k) ∧
    (∀ z, (create_zone driver domain ty ttl (some e) data).2 = Except.ok z →
       dlookup z.extra k = if k ∈ VALID_ZONE_EXTRA_PARAMS then dlookup e k else none) ∧
    (k ∈ VALID_ZONE_EXTRA_PARAMS → dlookup e k = some v →
       dlookup (update_zone zone domain ty ttl (some e) data).1 k = some v) ∧
    (k ∉ VALID_ZONE_EXTRA_PARAMS →
       dlookup (update_zone zone domain ty ttl (some e) data).1 k
         = dlookup (update_zone_base_params zone domain ty ttl) k) ∧
    (k ∉ VALID_ZONE_EXTRA_PARAMS →
       dlookup (update_zone zone domain ty ttl (some e) data).2.extra k
         = dlookup zone.extra k) ∧
    (k ∈ VALID_ZONE_EXTRA_PARAMS → dlookup e k = some v → v ≠ Value.vnone →
       dlookup (update_zone zone domain ty ttl (some e) data).2.extra k = some v) ∧
    (k ∈ VALID_ZONE_EXTRA_PARAMS → dlookup e k = some Value.vnone →
       dlookup (update_zone zone domain ty ttl (some e) data).2.extra k
         = dlookup zone.extra k) ∧
    (k ∈ VALID_RECORD_EXTRA_PARAMS → dlookup e k = some v →
       dlookup (create_record driver name zone rty target (some e) data).1 k = some v) ∧
    (k ∉ VALID_RECORD_EXTRA_PARAMS →
       dlookup (create_record driver name zone rty target (some e) data).1 k
         = dlookup (create_record_base_params zone name target rty) k) ∧
    (∀ r, (create_record driver name zone rty target (some e) data).2 = Except.ok r →
       dlookup r.extra k
         = if k ∈ VALID_RECORD_EXTRA_PARAMS then dlookup e k else none) := by
  have hndz : VALID_ZONE_EXTRA_PARAMS.Nodup := by decide
  have hndr : VALID_RECORD_EXTRA_PARAMS.Nodup := by decide
  refine ⟨?_, ?_, ?_, ?_, ?_, ?_, ?_, ?_, ?_, ?_, ?_, ?_⟩
  · intro hk hv
    exact (mergeValidKeys_hit (create_zone_base_params domain ty ttl)
      VALID_ZONE_EXTRA_PARAMS e k v hndz hk hv).1
  · intro _ hv
    exact (mergeValidKeys_miss (create_zone_base_params domain ty ttl)
      VALID_ZONE_EXTRA_PARAMS e k hv).1
  · intro hk
    exact (mergeValidKeys_not_mem (create_zone_base_params domain ty ttl)
      VALID_ZONE_EXTRA_PARAMS e k hk).1
  · intro z hz
    cases hd : dlookup data "DomainID" with
    | none => simp [create_zone, hd] at hz
    | some did =>
        simp [create_zone, hd] at hz
        rw [← hz]
        by_cases hk : k ∈ VALID_ZONE_EXTRA_PARAMS
        · cases hv : dlookup e k with
          | none =>
              simp only [hk, if_true]
              exact (mergeValidKeys_miss (create_zone_base_params domain ty ttl)
                VALID_ZONE_EXTRA_PARAMS e k hv).2
          | some w =>
              simp only [hk, if_true]
              exact (mergeValidKeys_hit (create_zone_base_params domain ty ttl)
                VALID_ZONE_EXTRA_PARAMS e k w hndz hk hv).2
        · simp only [hk, if_false]
          exact (mergeValidKeys_not_mem (create_zone_base_params domain ty ttl)
            VALID_ZONE_EXTRA_PARAMS e k hk).2
  · intro hk hv
    exact (mergeValidKeys_hit (update_zone_base_params zone domain ty ttl)
      VALID_ZONE_EXTRA_PARAMS e k v hndz hk hv).1
  · intro hk
    exact (mergeValidKeys_not_mem (update_zone_base_params zone domain ty ttl)
      VALID_ZONE_EXTRA_PARAMS e k hk).1
  · intro hk
    have hm := (mergeValidKeys_not_mem (update_zone_base_params zone domain ty ttl)
      VALID_ZONE_EXTRA_PARAMS e k hk).2
    exact overlayExtra_lookup_none _ k hm zone.extra
  · intro hk hv hvn
    have hm := (mergeValidKeys_hit (update_zone_base_params zone domain ty ttl)
      VALID_ZONE_EXTRA_PARAMS e k v hndz hk hv).2
    exact overlayExtra_hit _ k v
      (mergeValidKeys_nodupKeys (update_zone_base_params zone domain ty ttl)
        VALID_ZONE_EXTRA_PARAMS (some e)) hm hvn zone.extra
  · intro hk hv
    have hm := (mergeValidKeys_hit (update_zone_base_params zone domain ty ttl)
      VALID_ZONE_EXTRA_PARAMS e k Value.vnone hndz hk hv).2
    exact overlayExtra_entry_vnone _ k
      (mergeValidKeys_nodupKeys (update_zone_base_params zone domain ty ttl)
        VALID_ZONE_EXTRA_PARAMS (some e)) hm zone.extra
  · intro hk hv
    exact (mergeValidKeys_hit (create_record_base_params zone name target rty)
      VALID_RECORD_EXTRA_PARAMS e k v hndr hk hv).1
  · intro hk
    exact (mergeValidKeys_not_mem (create_record_base_params zone name target rty)
      VALID_RECORD_EXTRA_PARAMS e k hk).1
  · intro r hr
    cases hd : dlookup data "ResourceID" with
    | none => simp [create_record, hd] at hr
    | some rid =>
        simp [create_record, hd] at hr
        rw [← hr]
        by_cases hk : k ∈ VALID_RECORD_EXTRA_PARAMS
        · cases hv : dlookup e k with
          | none =>
              simp only [hk, if_true]
              exact (mergeValidKeys_miss (create_record_base_params zone name target rty)
                VALID_RECORD_EXTRA_PARAMS e k hv).2
          | some w =>
              simp only [hk, if_true]
              exact (mergeValidKeys_hit (create_record_base_params zone name target rty)
                VALID_RECORD_EXTRA_PARAMS e k w hndr hk hv).2
        · simp only [hk, if_false]
          exact (mergeValidKeys_not_mem (create_record_base_params zone name target rty)
            VALID_RECORD_EXTRA_PARAMS e k hk).2

/-- Witness for C7's amended theorem, at the spec's own example:
`extra = {'SOA_Email': 'a@b.com', 'bogus': 'x'}` on zone create — the
allow-listed key reaches the outgoing parameters, the bogus key changes
nothing. -/
theorem C7_allowlist_merge_wit :
    "SOA_Email" ∈ VALID_ZONE_EXTRA_PARAMS ∧
    "bogus" ∉ VALID_ZONE_EXTRA_PARAMS ∧
    dlookup (create_zone 0 (Value.str "example.com") (Value.str "master") Value.vnone
        (some [("SOA_Email", Value.str "a@b.com"), ("bogus", Value.str "x")])
        [("DomainID", Value.int 9)]).1 "SOA_Email" = some (Value.str "a@b.com") ∧
    dlookup (create_zone 0 (Value.str "example.com") (Value.str "master") Value.vnone
        (some [("SOA_Email", Value.str "a@b.com"), ("bogus", Value.str "x")])
        [("DomainID", Value.int 9)]).1 "bogus"
      = dlookup (create_zone_base_params (Value.str "example.com") (Value.str "master")
          Value.vnone) "bogus" :=
  ⟨by decide, by decide,
   (C7_allowlist_merge 0 sampleZone (Value.str "example.com") (Value.str "master")
      Value.vnone Value.vnone Value.vnone RecordType.A
      [("SOA_Email", Value.str "a@b.com"), ("bogus", Value.str "x")]
      [("DomainID", Value.int 9)] "SOA_Email" (Value.str "a@b.com")).1
      (by decide) rfl,
   (C7_allowlist_merge 0 sampleZone (Value.str "example.com") (Value.str "master")
      Value.vnone Value.vnone Value.vnone RecordType.A
      [("SOA_Email", Value.str "a@b.com"), ("bogus", Value.str "x")]
      [("DomainID", Value.int 9)] "bogus" (Value.str "x")).2.2.1
      (by decide)⟩

/-- C10: a successful `create_zone` builds the returned Zone from the
caller's arguments, not the response body: the id is the response item's
`DomainID`, the domain, type and ttl are the arguments exactly as
supplied (ttl possibly None), the extra is exactly the allow-listed
subset of the supplied extra, and the driver is the calling driver — no
other response field is reflected. -/
theorem C10_create_zone_from_arguments (driver : Nat) (domain ty ttl : Value)
    (extra : Option Dict) (data : Dict) (did : Value) (k : String)
    (hdata : dlookup data "DomainID" = some did) :
    (create_zone driver domain ty ttl extra data).2
      = Except.ok { id := did, domain := domain, type := ty, ttl := ttl,
                    extra := (mergeValidKeys (create_zone_base_params domain ty ttl)
                        VALID_ZONE_EXTRA_PARAMS extra).2,
                    driver := driver } ∧
    (∀ z, (create_zone driver domain ty ttl extra data).2 = Except.ok z →
       dlookup z.extra k
         = if k ∈ VALID_ZONE_EXTRA_PARAMS then extraLookup extra k else none) := by
  have hndz : VALID_ZONE_EXTRA_PARAMS.Nodup := by decide
  constructor
  · simp [create_zone, hdata]
  · intro z hz
    simp [create_zone, hdata] at hz
    rw [← hz]
    cases extra with
    | none =>
        have := mergeValidKeys_no_extra (create_zone_base_params domain ty ttl)
          VALID_ZONE_EXTRA_PARAMS k
        simp [this.2, extraLookup]
    | some e =>
        by_cases hk : k ∈ VALID_ZONE_EXTRA_PARAMS
        · cases hv : dlookup e k with
          | none =>
              simp only [hk, if_true, extraLookup]
              rw [hv]
              exact (mergeValidKeys_miss (create_zone_base_params domain ty ttl)
                VALID_ZONE_EXTRA_PARAMS e k hv).2
          | some w =>
              simp only [hk, if_true, extraLookup]
              rw [hv]
              exact (mergeValidKeys_hit (create_zone_base_params domain ty ttl)
                VALID_ZONE_EXTRA_PARAMS e k w hndz hk hv).2
        · simp only [hk, if_false]
          exact (mergeValidKeys_not_mem (create_zone_base_params domain ty ttl)
            VALID_ZONE_EXTRA_PARAMS e k hk).2

/-- Witness for C10 at a concrete input: a response carrying
`DomainID: 9` plus unrelated fields, ttl unset, no extra. -/
theorem C10_create_zone_from_arguments_wit :
    (create_zone 0 (Value.str "example.com") (Value.str "master") Value.vnone none
        [("DomainID", Value.int 9), ("OTHER", Value.str "ignored")]).2
      = Except.ok { id := Value.int 9, domain := Value.str "example.com",
                    type := Value.str "master", ttl := Value.vnone,
                    extra := (mergeValidKeys (create_zone_base_params
                        (Value.str "example.com") (Value.str "master") Value.vnone)
                        VALID_ZONE_EXTRA_PARAMS none).2,
                    driver := 0 } :=
  (C10_create_zone_from_arguments 0 (Value.str "example.com") (Value.str "master")
    Value.vnone none [("DomainID", Value.int 9), ("OTHER", Value.str "ignored")]
    (Value.int 9) "SOA_Email" rfl).1
